import Mathlib

/-!
Verification of the Movie-Api Express application (src/index.js).

Documents are modelled as association lists of fields (first binding wins),
matching the open document model of the underlying store: several routes
filter on fields such as `id` and `user_name` that the declared data model
does not contain, so documents must be able to carry arbitrary fields.
Field values are strings, null, or arrays of string-or-null elements;
embedded movie sub-documents are flattened to their dotted query paths
("Genre.Name", "Director.Name"), which is equivalent for the read-only
equality queries the code performs on them.

External collaborators are modelled at the level of their documented
behaviour:

* Express route parameters: a case-sensitive map holding exactly the
  parameters declared in the route pattern; reading an undeclared name
  yields `none` (JavaScript `undefined`), and interpolating `undefined`
  into a string yields the text "undefined".
* The store driver (mongoose 5.x, per the callback API and connection
  options the code uses): `undefined` values in a query filter are dropped
  before matching, and `undefined` values in an update are cast to null
  (the default, `omitUndefined` unset).  Each store call either succeeds
  or reports an error string; handlers are therefore split into a pure
  store-transition part and a callback part mapping the settled result to
  an HTTP response, exactly mirroring the `.then`/`.catch` or
  `(err, result)` callbacks in the source.
* The password-hashing primitive `Users.hashPassword` lives in models.js,
  which is outside src/; it is a parameter `hashPassword` of the model.
  Likewise email validation (validator.js `isEmail`) is a parameter.
* The JWT guard (passport) is abstracted as a boolean token validity.

String length is the number of characters, which agrees with the
JavaScript `.length` used by the validators on the inputs considered here.
-/

/-- A stored field value: a string, null, or an array whose elements are
strings or nulls (`none` models a null element, as produced by casting
an `undefined` update value). -/
inductive BVal where
  | str : String → BVal
  | null : BVal
  | arr : List (Option String) → BVal
deriving DecidableEq, Repr

/-- A document: an association list of named fields, first binding wins. -/
abbrev Doc := List (String × BVal)

def docGet (d : Doc) (k : String) : Option BVal :=
  (d.find? (fun kv => kv.1 == k)).map (fun kv => kv.2)

def docSet (d : Doc) (k : String) (v : BVal) : Doc :=
  if d.any (fun kv => kv.1 == k) then
    d.map (fun kv => if kv.1 == k then (k, v) else kv)
  else d ++ [(k, v)]

/-- JavaScript string interpolation of a possibly-undefined value:
`undefined + " was deleted."` yields `"undefined was deleted."`. -/
def jsStr : Option String → String
  | some s => s
  | none => "undefined"

/-- Express `req.params`: the parameters declared in the route pattern.
Lookup is case-sensitive; an undeclared name reads as `none`. -/
abbrev Params := List (String × String)

def getParam (ps : Params) (k : String) : Option String :=
  (ps.find? (fun kv => kv.1 == k)).map (fun kv => kv.2)

/-- A query filter as written in the source: field name paired with the
JavaScript value supplied, where `none` is `undefined`. -/
abbrev QFilter := List (String × Option String)

/-- Mongoose (5.x) drops conditions whose value is `undefined` when
casting a query, leaving only the defined equality conditions. -/
def effFilter (f : QFilter) : List (String × String) :=
  f.filterMap (fun kv => kv.2.map (fun v => (kv.1, v)))

def matchesF (d : Doc) (f : List (String × String)) : Bool :=
  f.all (fun kv => docGet d kv.1 == some (BVal.str kv.2))

/-- `Model.findOne(filter)`: first document matching the cast filter. -/
def findOne (docs : List Doc) (f : QFilter) : Option Doc :=
  docs.find? (fun d => matchesF d (effFilter f))

/-- Mongoose casts an `undefined` update value to null (default
`omitUndefined` behaviour). -/
def castVal : Option String → BVal
  | some s => BVal.str s
  | none => BVal.null

/-- The update operators the source uses. -/
inductive Update where
  | set : List (String × Option String) → Update
  | push : String → Option String → Update
  | pull : String → Option String → Update
deriving DecidableEq, Repr

def applyUpdate : Update → Doc → Except String Doc
  | .set kvs, d => .ok (kvs.foldl (fun d kv => docSet d kv.1 (castVal kv.2)) d)
  | .push k v, d =>
    match docGet d k with
    | none => .ok (docSet d k (.arr [v]))
    | some (.arr l) => .ok (docSet d k (.arr (l ++ [v])))
    | some _ => .error "The field must be an array"
  | .pull k v, d =>
    match docGet d k with
    | none => .ok d
    | some (.arr l) => .ok (docSet d k (.arr (l.filter (fun x => x != v))))
    | some _ => .error "Cannot apply pull to a non-array value"

/-- `findOneAndUpdate` with `new: true` on an already-cast filter: update
the first matching document in place and return the updated document;
return `none` (no error) when nothing matches. -/
def fOAU : List Doc → List (String × String) → Update → List Doc × Except String (Option Doc)
  | [], _, _ => ([], .ok none)
  | d :: rest, f, u =>
    if matchesF d f then
      match applyUpdate u d with
      | .ok d' => (d' :: rest, .ok (some d'))
      | .error e => (d :: rest, .error e)
    else
      let r := fOAU rest f u
      (d :: r.1, r.2)

def findOneAndUpdate (docs : List Doc) (f : QFilter) (u : Update) :
    List Doc × Except String (Option Doc) :=
  fOAU docs (effFilter f) u

/-- `findOneAndRemove` on an already-cast filter. -/
def fOAR : List Doc → List (String × String) → List Doc × Option Doc
  | [], _ => ([], none)
  | d :: rest, f =>
    if matchesF d f then (rest, some d)
    else
      let r := fOAR rest f
      (d :: r.1, r.2)

def findOneAndRemove (docs : List Doc) (f : QFilter) : List Doc × Option Doc :=
  fOAR docs (effFilter f)

/-- An express-validator violation, as serialized into the 422 body:
the checked field and its message. -/
structure VErr where
  param : String
  msg : String
deriving DecidableEq, Repr

inductive ResBody where
  | text : String → ResBody
  | json : Option Doc → ResBody
  | jsonList : List Doc → ResBody
  | jsonErrors : List VErr → ResBody
deriving DecidableEq, Repr

structure Response where
  status : Nat
  body : ResBody
deriving DecidableEq, Repr

/-- express-validator reads a missing body field as the empty string
before running the validators. -/
def coerceField : Option String → String
  | some s => s
  | none => ""

/-- `isLength(min 5)`. -/
def jsIsLengthMin5 (s : String) : Bool := decide (5 ≤ s.data.length)

/-- validator.js `isAlphanumeric` (default locale): one or more
ASCII letters or digits; the empty string fails. -/
def jsIsAlphanumeric (s : String) : Bool := s.data.length != 0 && s.data.all Char.isAlphanum

/-- `.not().isEmpty()`. -/
def jsNotEmpty (s : String) : Bool := s.data.length != 0

/-- The JSON body of POST /users; absent fields are `none`. -/
structure SignupBody where
  Username : Option String
  Password : Option String
  Email : Option String
  Birthday : Option String
deriving DecidableEq, Repr

/-- The four checks of POST /users, run in registration order, errors
accumulated across checks (express-validator `validationResult`). -/
def validationErrors (isEmail : String → Bool) (b : SignupBody) : List VErr :=
  (if jsIsLengthMin5 (coerceField b.Username) then []
   else [⟨"Username", "Username is required"⟩]) ++
  (if jsIsAlphanumeric (coerceField b.Username) then []
   else [⟨"Username", "Username contains non alphanumeric characters - not allowed."⟩]) ++
  (if jsNotEmpty (coerceField b.Password) then []
   else [⟨"Password", "Password is required"⟩]) ++
  (if isEmail (coerceField b.Email) then []
   else [⟨"Email", "Email does not appear to be valid"⟩])

/-- The document `Users.create` stores for a validated signup body: the
four fields the handler passes, the password hashed; an absent Birthday
is simply not stored. -/
def mkUserDoc (hashPassword : String → String) (b : SignupBody) : Doc :=
  [("Username", BVal.str (coerceField b.Username)),
   ("Password", BVal.str (hashPassword (coerceField b.Password))),
   ("Email", BVal.str (coerceField b.Email))] ++
  (match b.Birthday with
   | some bd => [("Birthday", BVal.str bd)]
   | none => [])

/-- POST /users: validate (422 on any violation, store untouched), then
hash the password, reject a taken Username with 400, else create. -/
def postUsers (isEmail : String → Bool) (hashPassword : String → String)
    (b : SignupBody) (users : List Doc) : Response × List Doc :=
  let errs := validationErrors isEmail b
  if errs.isEmpty then
    match findOne users [("Username", b.Username)] with
    | some _ => (⟨400, .text (jsStr b.Username ++ "already exists")⟩, users)
    | none =>
      let newUser := mkUserDoc hashPassword b
      (⟨201, .json (some newUser)⟩, users ++ [newUser])
  else (⟨422, .jsonErrors errs⟩, users)

/-- The JSON body of PUT /users/:ID as the handler reads it. -/
structure UpdateBody where
  Password : Option String
  Email : Option String
  Birthday : Option String
deriving DecidableEq, Repr

/-- Route PUT /users/:ID declares exactly the parameter `ID`. -/
def putUserParams (idv : String) : Params := [("ID", idv)]

/-- The filter the PUT handler builds: `field id` against `req.params.id`
(which is undefined, the declared parameter being `ID`). -/
def putUsersFilter (idv : String) : QFilter :=
  [("id", getParam (putUserParams idv) "id")]

def putUsersUpdate (b : UpdateBody) : Update :=
  .set [("Password", b.Password), ("Email", b.Email), ("Birthday", b.Birthday)]

def putUsersCallback : Except String (Option Doc) → Response
  | .error e => ⟨500, .text ("Error: " ++ e)⟩
  | .ok u => ⟨200, .json u⟩

def putUsers (idv : String) (b : UpdateBody) (users : List Doc) : Response × List Doc :=
  let r := findOneAndUpdate users (putUsersFilter idv) (putUsersUpdate b)
  (putUsersCallback r.2, r.1)

/-- Route POST /users/:ID/:movieID declares `ID` and `movieID`. -/
def postFavParams (idv movieID : String) : Params := [("ID", idv), ("movieID", movieID)]

def postFavCallback : Except String (Option Doc) → Response
  | .error e => ⟨500, .text ("Error: " ++ e)⟩
  | .ok u => ⟨200, .json u⟩

def postFav (idv movieID : String) (users : List Doc) : Response × List Doc :=
  let ps := postFavParams idv movieID
  let r := findOneAndUpdate users [("user_name", getParam ps "ID")]
    (.push "FavoriteMovies" (getParam ps "movieID"))
  (postFavCallback r.2, r.1)

/-- Route DELETE /users/:ID/:deleteFavorite declares `ID` and
`deleteFavorite`; the handler reads `req.params.id` and
`req.params.MovieID`, both undeclared. -/
def deleteFavParams (idv deleteFavorite : String) : Params :=
  [("ID", idv), ("deleteFavorite", deleteFavorite)]

def deleteFavCallback : Except String (Option Doc) → Response
  | .error e => ⟨500, .text ("Error: " ++ e)⟩
  | .ok u => ⟨200, .json u⟩

def deleteFav (idv deleteFavorite : String) (users : List Doc) : Response × List Doc :=
  let ps := deleteFavParams idv deleteFavorite
  let r := findOneAndUpdate users [("user_name", getParam ps "id")]
    (.pull "FavoriteMovies" (getParam ps "MovieID"))
  (deleteFavCallback r.2, r.1)

/-- Route DELETE /users/:id/unregister declares exactly `id`. -/
def unregisterParams (idv : String) : Params := [("id", idv)]

/-- Response mapping of the unregister handler; the confirmation texts
interpolate `req.params.user_name`, which the route never declares. -/
def unregisterCallback (idv : String) : Except String (Option Doc) → Response
  | .error e => ⟨500, .text ("Error: " ++ e)⟩
  | .ok none =>
    ⟨400, .text (jsStr (getParam (unregisterParams idv) "user_name") ++ " was not found")⟩
  | .ok (some _) =>
    ⟨200, .text (jsStr (getParam (unregisterParams idv) "user_name") ++ " was deleted.")⟩

def deleteUnregister (idv : String) (users : List Doc) : Response × List Doc :=
  let r := findOneAndRemove users [("id", getParam (unregisterParams idv) "id")]
  (unregisterCallback idv (.ok r.2), r.1)

/-- Shared shape of the three single-movie lookups: `res.json` of the
found-or-null document (status 200), 500 with the error text on failure. -/
def lookupCallback : Except String (Option Doc) → Response
  | .ok m => ⟨200, .json m⟩
  | .error e => ⟨500, .text ("Error: " ++ e)⟩

def getMovieByTitle (title : String) (movies : List Doc) : Response :=
  lookupCallback (.ok (findOne movies [("Title", some title)]))

def getMovieByGenre (name : String) (movies : List Doc) : Response :=
  lookupCallback (.ok (findOne movies [("Genre.Name", some name)]))

def getMovieByDirector (name : String) (movies : List Doc) : Response :=
  lookupCallback (.ok (findOne movies [("Director.Name", some name)]))

/-- Shared callback of GET /movies and GET /users: 201 with the full
collection, 400 with the error text on a store error. -/
def listAllCallback : Except String (List Doc) → Response
  | .ok l => ⟨201, .jsonList l⟩
  | .error e => ⟨400, .text ("Error: " ++ e)⟩

def getMovies (movies : List Doc) : Response := listAllCallback (.ok movies)

def getUsers (users : List Doc) : Response := listAllCallback (.ok users)

inductive Method where
  | get | post | put | delete
deriving DecidableEq, Repr

structure Route where
  method : Method
  path : String
  requiresAuth : Bool
deriving DecidableEq, Repr

/-- The twelve route registrations of index.js, in registration order;
`requiresAuth` records the presence of the passport JWT middleware. -/
def routes : List Route :=
  [⟨.get, "/documentation", false⟩,
   ⟨.get, "/", false⟩,
   ⟨.get, "/movies", true⟩,
   ⟨.get, "/movies/:title", true⟩,
   ⟨.get, "/movies/genre/:name", true⟩,
   ⟨.get, "/movies/director/:name", true⟩,
   ⟨.get, "/users", true⟩,
   ⟨.post, "/users", false⟩,
   ⟨.put, "/users/:ID", true⟩,
   ⟨.post, "/users/:ID/:movieID", true⟩,
   ⟨.delete, "/users/:id/unregister", true⟩,
   ⟨.delete, "/users/:ID/:deleteFavorite", true⟩]

/-- The routes registered without the JWT middleware. -/
def exemptRoutes : List (Method × String) :=
  [(.get, "/"), (.get, "/documentation"), (.post, "/users")]

/-- The passport JWT guard: on a guarded route, an invalid or missing
token short-circuits with 401 before the handler runs. -/
def protect (requiresAuth tokenValid : Bool)
    (handler : List Doc → Response × List Doc) (st : List Doc) : Response × List Doc :=
  if requiresAuth && !tokenValid then (⟨401, .text "Unauthorized"⟩, st)
  else handler st

/-- A concrete email validity test used to exercise the model. -/
def demoIsEmail : String → Bool := fun s => s == "a@example.com"

/-- A concrete stand-in for the hashing primitive; its output never
equals its input. -/
def demoHash : String → String := fun s => "$2b$10$" ++ s

/-! Concrete inputs used by the claim theorems below. -/

/-- The signup body of the spec's concrete scenario. -/
def aliceSignup : SignupBody :=
  ⟨some "alice1", some "secret", some "a@example.com", some "1999-01-01"⟩

/-- The document the signup scenario stores under `demoHash`. -/
def aliceStored : Doc :=
  [("Username", .str "alice1"), ("Password", .str "$2b$10$secret"),
   ("Email", .str "a@example.com"), ("Birthday", .str "1999-01-01")]

/-- The same document after a profile update with plaintext "newpass". -/
def aliceAfterPut : Doc :=
  [("Username", .str "alice1"), ("Password", .str "newpass"),
   ("Email", .str "a@example.com"), ("Birthday", .str "1999-01-01")]

/-- C1: stored passwords are never plaintext.  The signup half holds: the
created record's Password is the hash, not the submitted "secret".  But the
profile update PUT /users/:ID writes `req.body.Password` verbatim, without
calling the hashing primitive: after a PUT whose body carries the plaintext
"newpass", the stored Password field equals that plaintext, so the claimed
invariant is not preserved.  This theorem evaluates the code at that
failing input. -/
theorem c1_put_update_stores_plaintext_password :
    (postUsers demoIsEmail demoHash aliceSignup []).2 = [aliceStored] ∧
    docGet aliceStored "Password" ≠ some (.str "secret") ∧
    putUsers "1" ⟨some "newpass", some "a@example.com", some "1999-01-01"⟩ [aliceStored] =
      (⟨200, .json (some aliceAfterPut)⟩, [aliceAfterPut]) ∧
    docGet aliceAfterPut "Password" = some (.str "newpass") := by
  decide

/-- A user holding the `user_name` field the favourites routes filter on,
with an initially empty favourites list. -/
def favUser : Doc := [("user_name", .str "u1"), ("FavoriteMovies", .arr [])]

/-- The same user after POST /users/u1/m1. -/
def favUserAfter : Doc := [("user_name", .str "u1"), ("FavoriteMovies", .arr [some "m1"])]

/-- C5: the add/remove favourites round-trip fails.  POST /users/u1/m1
appends "m1", but DELETE /users/u1/m1 pulls `req.params.MovieID`, which is
undefined (the route declares `:deleteFavorite`) and is cast to null, so
the pull removes nothing and the list keeps "m1" instead of returning to
its original contents.  This theorem evaluates the code at that failing
input. -/
theorem c5_roundtrip_leaves_added_movie :
    (postFav "u1" "m1" [favUser]).2 = [favUserAfter] ∧
    (deleteFav "u1" "m1" [favUserAfter]).2 = [favUserAfter] ∧
    [favUserAfter] ≠ [favUser] := by
  decide

/-- A user document carrying a literal `id` field. -/
def bobDoc : Doc :=
  [("id", .str "1"), ("Username", .str "bob"), ("Password", .str "h1"),
   ("Email", .str "e1"), ("Birthday", .str "b1")]

/-- `bobDoc` after the PUT update below. -/
def bobDocAfter : Doc :=
  [("id", .str "1"), ("Username", .str "bob"), ("Password", .str "p2"),
   ("Email", .str "e2"), ("Birthday", .str "b2")]

/-- C6 counterexample: with a single stored user whose `id` field is "1",
a PUT /users/2 request modifies that user even though no stored document
has an `id` field equal to the route parameter "2" — the handler reads
`req.params.id`, which is undefined (the parameter is declared `:ID`), and
the undefined filter condition is dropped, so the first document matches. -/
theorem c6_put_ignores_route_parameter :
    findOne [bobDoc] [("id", some "2")] = none ∧
    putUsers "2" ⟨some "p2", some "e2", some "b2"⟩ [bobDoc] =
      (⟨200, .json (some bobDocAfter)⟩, [bobDocAfter]) ∧
    bobDocAfter ≠ bobDoc := by
  decide

/-- The `$set` document the PUT handler applies, with undefined body
fields cast to null. -/
def putSetDoc (b : UpdateBody) (d : Doc) : Doc :=
  docSet (docSet (docSet d "Password" (castVal b.Password)) "Email" (castVal b.Email))
    "Birthday" (castVal b.Birthday)

/-- C6 amended: PUT /users/:ID filters on field `id` against
`req.params.id`, which is undefined because the parameter is declared
`:ID`; the store drops the undefined condition, so the update applies to
the first user document in the collection regardless of the route
parameter, responding 200 with the updated document as JSON (null when the
collection is empty); a store error yields 500 with the error text. -/
theorem c6_put_updates_first_user :
    (∀ idv b, putUsers idv b [] = (⟨200, .json none⟩, [])) ∧
    (∀ idv b d rest, putUsers idv b (d :: rest) =
      (⟨200, .json (some (putSetDoc b d))⟩, putSetDoc b d :: rest)) ∧
    (∀ e, putUsersCallback (.error e) = ⟨500, .text ("Error: " ++ e)⟩) :=
  ⟨fun _ _ => rfl, fun _ _ _ _ => rfl, fun _ => rfl⟩

/-- A user document carrying a literal `id` field for the unregister
route. -/
def aliceWithId : Doc := [("id", .str "7"), ("Username", .str "alice")]

/-- C8: DELETE /users/:id/unregister removes the first user whose `id`
field equals the route parameter and maps found/not-found/store-error to
200/400/500 — but the confirmation texts interpolate
`req.params.user_name`, a parameter the route never declares, so the 200
body is the literal "undefined was deleted." and never names the removed
user, contradicting the endpoint's own documentation.  This theorem
evaluates the code at that failing input. -/
theorem c8_unregister_confirmation_names_undefined :
    deleteUnregister "7" [aliceWithId] = (⟨200, .text "undefined was deleted."⟩, []) ∧
    deleteUnregister "8" [aliceWithId] =
      (⟨400, .text "undefined was not found"⟩, [aliceWithId]) ∧
    unregisterCallback "7" (.error "boom") = ⟨500, .text "Error: boom"⟩ := by
  decide

/-- C9: GET /movies and GET /users respond 201 (not 200) with the full
collection as a JSON array on success, and 400 with the error text
("Error: " concatenated with the raw store error message) on a store
error. -/
theorem c9_list_endpoints_201_and_400 :
    (∀ movies, getMovies movies = ⟨201, .jsonList movies⟩) ∧
    (∀ users, getUsers users = ⟨201, .jsonList users⟩) ∧
    (∀ e, listAllCallback (.error e) = ⟨400, .text ("Error: " ++ e)⟩) :=
  ⟨fun _ => rfl, fun _ => rfl, fun _ => rfl⟩

/-- C4: every route except GET /, GET /documentation, and POST /users
carries the JWT middleware, and on a guarded route an invalid or missing
token short-circuits with 401, leaving the store untouched and never
running the handler (the outcome is the same for every handler); the
exempt routes never consult the token. -/
theorem c4_auth_required_except_three :
    (∀ r ∈ routes, (r.requiresAuth = true ↔ (r.method, r.path) ∉ exemptRoutes)) ∧
    (∀ h st, protect true false h st = (⟨401, .text "Unauthorized"⟩, st)) ∧
    (∀ tv h st, protect false tv h st = h st) := by
  refine ⟨by decide, fun h st => rfl, fun tv h st => rfl⟩

/-- C4 witness: the guarded GET /movies route at an invalid token. -/
theorem c4_auth_required_except_three_witness :
    ((⟨Method.get, "/movies", true⟩ : Route).requiresAuth = true ↔
      (Method.get, "/movies") ∉ exemptRoutes) ∧
    protect true false (fun st => (⟨200, .text "ok"⟩, st)) [] =
      (⟨401, .text "Unauthorized"⟩, []) :=
  ⟨c4_auth_required_except_three.1 ⟨Method.get, "/movies", true⟩ (by decide),
   c4_auth_required_except_three.2.1 (fun st => (⟨200, .text "ok"⟩, st)) []⟩

/-- C7: the single-movie lookups (by title, genre name, director name)
respond 200 with body null when nothing matches — never 404 — and 200
with the matching movie's document when one does. -/
theorem c7_lookup_miss_is_200_null (movies : List Doc) (t g dn : String) :
    (findOne movies [("Title", some t)] = none →
      getMovieByTitle t movies = ⟨200, .json none⟩) ∧
    (∀ m, findOne movies [("Title", some t)] = some m →
      getMovieByTitle t movies = ⟨200, .json (some m)⟩) ∧
    (findOne movies [("Genre.Name", some g)] = none →
      getMovieByGenre g movies = ⟨200, .json none⟩) ∧
    (∀ m, findOne movies [("Genre.Name", some g)] = some m →
      getMovieByGenre g movies = ⟨200, .json (some m)⟩) ∧
    (findOne movies [("Director.Name", some dn)] = none →
      getMovieByDirector dn movies = ⟨200, .json none⟩) ∧
    (∀ m, findOne movies [("Director.Name", some dn)] = some m →
      getMovieByDirector dn movies = ⟨200, .json (some m)⟩) := by
  refine ⟨fun h => ?_, fun m h => ?_, fun h => ?_, fun m h => ?_, fun h => ?_, fun m h => ?_⟩ <;>
    simp [getMovieByTitle, getMovieByGenre, getMovieByDirector, lookupCallback, h]

/-- C7 witness: the spec's concrete scenario — no movie titled
"Inception" is stored, and the lookup answers 200 with null. -/
theorem c7_lookup_miss_is_200_null_witness :
    findOne [] [("Title", some "Inception")] = none ∧
    getMovieByTitle "Inception" [] = ⟨200, .json none⟩ :=
  ⟨rfl, (c7_lookup_miss_is_200_null [] "Inception" "g" "d").1 rfl⟩

/-- When no document satisfies the cast filter, `findOneAndUpdate`
returns the collection unchanged and reports a null result, no error. -/
theorem fOAU_of_find_none (f : List (String × String)) (u : Update) :
    ∀ docs : List Doc, docs.find? (fun d => matchesF d f) = none →
      fOAU docs f u = (docs, .ok none) := by
  intro docs
  induction docs with
  | nil => intro _; rfl
  | cons d rest ih =>
    intro h
    rw [List.find?_cons] at h
    cases hd : matchesF d f with
    | true => rw [hd] at h; exact Option.noConfusion h
    | false =>
      rw [hd] at h
      simp only [fOAU, hd, Bool.false_eq_true, if_false, ih h]

/-- C10: on the three user-mutation routes, a filter matching no stored
user is not an error: the handler answers 200 with JSON body null and the
collection is unchanged — never a 404 or error status. -/
theorem c10_no_match_answers_200_null (users : List Doc) (idv mid : String) (b : UpdateBody) :
    (findOne users (putUsersFilter idv) = none →
      putUsers idv b users = (⟨200, .json none⟩, users)) ∧
    (findOne users [("user_name", some idv)] = none →
      postFav idv mid users = (⟨200, .json none⟩, users)) ∧
    (findOne users [("user_name", getParam (deleteFavParams idv mid) "id")] = none →
      deleteFav idv mid users = (⟨200, .json none⟩, users)) := by
  refine ⟨fun h => ?_, fun h => ?_, fun h => ?_⟩
  · simp only [findOne] at h
    simp [putUsers, findOneAndUpdate, fOAU_of_find_none _ _ _ h, putUsersCallback]
  · have e : getParam [("ID", idv), ("movieID", mid)] "ID" = some idv := rfl
    simp only [findOne] at h
    simp [postFav, postFavParams, findOneAndUpdate, e, fOAU_of_find_none _ _ _ h,
      postFavCallback]
  · have e : getParam [("ID", idv), ("deleteFavorite", mid)] "id" = none := rfl
    simp only [findOne, deleteFavParams] at h
    simp only [e] at h
    simp [deleteFav, deleteFavParams, findOneAndUpdate, e, fOAU_of_find_none _ _ _ h,
      deleteFavCallback]

/-- C10 witness: the empty collection matches no filter. -/
theorem c10_no_match_answers_200_null_witness :
    findOne [] (putUsersFilter "5") = none ∧
    putUsers "5" ⟨none, none, none⟩ [] = (⟨200, .json none⟩, []) ∧
    postFav "5" "m" [] = (⟨200, .json none⟩, []) ∧
    deleteFav "5" "m" [] = (⟨200, .json none⟩, []) :=
  ⟨rfl,
   (c10_no_match_answers_200_null [] "5" "m" ⟨none, none, none⟩).1 rfl,
   (c10_no_match_answers_200_null [] "5" "m" ⟨none, none, none⟩).2.1 rfl,
   (c10_no_match_answers_200_null [] "5" "m" ⟨none, none, none⟩).2.2 rfl⟩

/-- C2: whenever any of the four signup checks fails, POST /users answers
422 carrying exactly the accumulated, ordered violation list, and the user
collection is untouched; each rule contributes its {field, message} entry
to the list exactly when it is violated (no short-circuiting between
rules). -/
theorem c2_invalid_signup_422_no_write (isEmail : String → Bool)
    (hashPassword : String → String) (b : SignupBody) (users : List Doc)
    (h : validationErrors isEmail b ≠ []) :
    postUsers isEmail hashPassword b users =
      (⟨422, .jsonErrors (validationErrors isEmail b)⟩, users) ∧
    ((jsIsLengthMin5 (coerceField b.Username) = false) ↔
      ⟨"Username", "Username is required"⟩ ∈ validationErrors isEmail b) ∧
    ((jsIsAlphanumeric (coerceField b.Username) = false) ↔
      ⟨"Username", "Username contains non alphanumeric characters - not allowed."⟩ ∈
        validationErrors isEmail b) ∧
    ((jsNotEmpty (coerceField b.Password) = false) ↔
      ⟨"Password", "Password is required"⟩ ∈ validationErrors isEmail b) ∧
    ((isEmail (coerceField b.Email) = false) ↔
      ⟨"Email", "Email does not appear to be valid"⟩ ∈ validationErrors isEmail b) := by
  refine ⟨?_, ?_, ?_, ?_, ?_⟩
  · cases hv : validationErrors isEmail b with
    | nil => exact absurd hv h
    | cons a t => simp [postUsers, hv]
  all_goals
    cases h1 : jsIsLengthMin5 (coerceField b.Username) <;>
    cases h2 : jsIsAlphanumeric (coerceField b.Username) <;>
    cases h3 : jsNotEmpty (coerceField b.Password) <;>
    cases h4 : isEmail (coerceField b.Email) <;>
    simp [validationErrors, h1, h2, h3, h4]

/-- A signup body violating three of the four rules. -/
def shortSignup : SignupBody := ⟨some "ab", some "", some "", none⟩

/-- C2 witness: the short-username body is rejected with 422 and the
collection stays empty. -/
theorem c2_invalid_signup_422_no_write_witness :
    validationErrors demoIsEmail shortSignup ≠ [] ∧
    postUsers demoIsEmail demoHash shortSignup [] =
      (⟨422, .jsonErrors (validationErrors demoIsEmail shortSignup)⟩, []) :=
  ⟨by decide,
   (c2_invalid_signup_422_no_write demoIsEmail demoHash shortSignup [] (by decide)).1⟩

/-- C3: a validated signup body whose Username is already stored is
rejected with 400 and body Username concatenated with "already exists"
(no space), leaving the collection unchanged; a validated body whose
Username is free appends exactly one record (the hashed-password user
document) and answers 201 with that document as JSON. -/
theorem c3_duplicate_400_fresh_create_201 (isEmail : String → Bool)
    (hashPassword : String → String) (b : SignupBody) (users : List Doc)
    (h : validationErrors isEmail b = []) :
    (∀ u, findOne users [("Username", b.Username)] = some u →
      postUsers isEmail hashPassword b users =
        (⟨400, .text (jsStr b.Username ++ "already exists")⟩, users)) ∧
    (findOne users [("Username", b.Username)] = none →
      postUsers isEmail hashPassword b users =
        (⟨201, .json (some (mkUserDoc hashPassword b))⟩,
          users ++ [mkUserDoc hashPassword b])) := by
  constructor
  · intro u hu
    simp [postUsers, h, hu]
  · intro hn
    simp [postUsers, h, hn]

/-- A valid signup body used to exercise the create and duplicate paths. -/
def carolSignup : SignupBody :=
  ⟨some "carol7", some "pw123", some "a@example.com", some "2000-02-02"⟩

/-- C3 witness: creating carol in an empty collection answers 201 and
stores one record; repeating the same signup answers 400
"carol7already exists" and stores nothing further. -/
theorem c3_duplicate_400_fresh_create_201_witness :
    validationErrors demoIsEmail carolSignup = [] ∧
    postUsers demoIsEmail demoHash carolSignup [] =
      (⟨201, .json (some (mkUserDoc demoHash carolSignup))⟩,
        [mkUserDoc demoHash carolSignup]) ∧
    postUsers demoIsEmail demoHash carolSignup [mkUserDoc demoHash carolSignup] =
      (⟨400, .text (jsStr carolSignup.Username ++ "already exists")⟩,
        [mkUserDoc demoHash carolSignup]) :=
  ⟨by decide,
   (c3_duplicate_400_fresh_create_201 demoIsEmail demoHash carolSignup [] (by decide)).2 rfl,
   (c3_duplicate_400_fresh_create_201 demoIsEmail demoHash carolSignup
      [mkUserDoc demoHash carolSignup] (by decide)).1 (mkUserDoc demoHash carolSignup)
      (by decide)⟩
